import Mathlib

/-!
Verification development for the storage-market deal coordination core
(`cpp-filecoin`): a shallow embedding of the provider deal FSM
(`src/core/markets/storage/provider/provider.cpp`), the local sector store
(`src/core/sector_storage/stores/impl/local_store.cpp`) and the chain-event
watcher contract (`src/core/markets/storage/events/events.hpp`), together
with theorems settling the specification claims about them.
-/

set_option maxRecDepth 4000

/-- Decidable equality for `Except`, so that concrete runs of the
embedded fallible operations can be checked by `decide`. -/
instance exceptDecEq {ε α : Type} [DecidableEq ε] [DecidableEq α] :
    DecidableEq (Except ε α)
  | .error e, .error f =>
    if h : e = f then .isTrue (by rw [h]) else .isFalse (by simp [h])
  | .ok x, .ok y =>
    if h : x = y then .isTrue (by rw [h]) else .isFalse (by simp [h])
  | .error _, .ok _ => .isFalse (by simp)
  | .ok _, .error _ => .isFalse (by simp)

namespace Filecoin

/-! ### Basic chain / market data types -/

/-- Content identifier, opaque for the embedding. -/
abbrev CID := Nat

/-- A keyed principal (miner or wallet), opaque. -/
abbrev Address := Nat

/-- Deal id assigned by the on-chain market actor. -/
abbrev DealId := Nat

/-- Per-miner sector number. -/
abbrev SectorNumber := Nat

/-- Token amount (non-negative big integer in the source). -/
abbrev TokenAmount := Int

/-- Registered seal proof type, opaque tag. -/
abbrev RegisteredProof := Nat

/-- Tipset key, opaque (result of `chain_head.makeKey()`). -/
abbrev TipsetKey := Nat

/-- Raw byte buffer (`common::Buffer`). -/
abbrev Buffer := List Nat

/-! ### Deal data model (`DealProposal`, `ClientDealProposal`, `MinerDeal`) -/

/-- The negotiated deal terms (`DealProposal`). -/
structure DealProposal where
  piece_cid : CID
  piece_size : Nat
  verified : Bool
  client : Address
  provider : Address
  start_epoch : Int
  end_epoch : Int
  storage_price_per_epoch : TokenAmount
  provider_collateral : TokenAmount
  client_collateral : TokenAmount
  deriving DecidableEq, Repr

/-- `DealProposal` plus the client signature over its canonical encoding. -/
structure ClientDealProposal where
  proposal : DealProposal
  client_signature : Nat
  deriving DecidableEq, Repr

/-- How the provider obtains the bytes (`DataRef`): a transfer-type tag and
optional root / piece CIDs. -/
structure DealRef where
  transfer_type : String
  root : Option CID
  piece_cid_ref : Option CID
  deriving DecidableEq, Repr

/-- `kTransferTypeManual` tag. -/
def kTransferTypeManual : String := "manual"

/-- Provider deal states (`StorageDealStatus`).  The enum declaration itself
is outside the extracted sources; the constructor list is the shared state
set of spec section 4.6, which names every state used by
`makeFSMTransitions`. -/
inductive StorageDealStatus where
  | STORAGE_DEAL_UNKNOWN
  | STORAGE_DEAL_PROPOSAL_ACCEPTED
  | STORAGE_DEAL_VALIDATING
  | STORAGE_DEAL_ACCEPT_WAIT
  | STORAGE_DEAL_START_DATA_TRANSFER
  | STORAGE_DEAL_TRANSFERRING
  | STORAGE_DEAL_WAITING_FOR_DATA
  | STORAGE_DEAL_VERIFY_DATA
  | STORAGE_DEAL_ENSURE_PROVIDER_FUNDS
  | STORAGE_DEAL_PROVIDER_FUNDING
  | STORAGE_DEAL_CLIENT_FUNDING
  | STORAGE_DEAL_ENSURE_CLIENT_FUNDS
  | STORAGE_DEAL_PUBLISH
  | STORAGE_DEAL_PUBLISHING
  | STORAGE_DEAL_STAGED
  | STORAGE_DEAL_SEALING
  | STORAGE_DEAL_FINALIZING
  | STORAGE_DEAL_ACTIVE
  | STORAGE_DEAL_EXPIRED
  | STORAGE_DEAL_COMPLETED
  | STORAGE_DEAL_FAILING
  | STORAGE_DEAL_ERROR
  | STORAGE_DEAL_SLASHED
  | STORAGE_DEAL_REJECTING
  | STORAGE_DEAL_REJECTED
  deriving DecidableEq, Repr, Fintype

open StorageDealStatus

/-- Terminal deal states per spec section 4.6:
`completed`, `error`, `expired`, `slashed`, `rejected`. -/
def isTerminal : StorageDealStatus → Bool
  | STORAGE_DEAL_COMPLETED => true
  | STORAGE_DEAL_ERROR => true
  | STORAGE_DEAL_EXPIRED => true
  | STORAGE_DEAL_SLASHED => true
  | STORAGE_DEAL_REJECTED => true
  | _ => false

/-- Provider FSM events (`ProviderEvent`). -/
inductive ProviderEvent where
  | ProviderEventOpen
  | ProviderEventNodeErrored
  | ProviderEventDealRejected
  | ProviderEventDealAccepted
  | ProviderEventWaitingForManualData
  | ProviderEventDataTransferFailed
  | ProviderEventDataTransferInitiated
  | ProviderEventDataTransferCompleted
  | ProviderEventGeneratePieceCIDFailed
  | ProviderEventVerifiedData
  | ProviderEventFundingInitiated
  | ProviderEventFunded
  | ProviderEventDealPublishInitiated
  | ProviderEventDealPublishError
  | ProviderEventSendResponseFailed
  | ProviderEventDealPublished
  | ProviderEventFileStoreErrored
  | ProviderEventDealHandoffFailed
  | ProviderEventDealHandedOff
  | ProviderEventDealActivationFailed
  | ProviderEventDealActivated
  | ProviderEventPieceStoreErrored
  | ProviderEventDealCompleted
  | ProviderEventUnableToLocatePiece
  | ProviderEventReadMetadataErrored
  | ProviderEventFailed
  deriving DecidableEq, Repr

open ProviderEvent

/-- The in-flight provider-side deal record (`MinerDeal`). -/
structure MinerDeal where
  client_deal_proposal : ClientDealProposal
  proposal_cid : CID
  add_funds_cid : Option CID
  state : StorageDealStatus
  piece_path : String
  metadata_path : String
  connection_closed : Bool
  message : String
  ref : DealRef
  deal_id : Option DealId
  deriving DecidableEq, Repr

/-- From-state specification of a transition: `fromAny` (none) or an
explicit list (`from` / `fromMany`). -/
structure ProviderTransition where
  event : ProviderEvent
  fromStates : Option (List StorageDealStatus)
  toState : StorageDealStatus
  deriving DecidableEq, Repr

/-- Whether a transition applies in state `s`.  Modelled from the spec for
the `fromAny` case (the FSM library is outside the extracted sources):
"`fromAny` means the transition is legal from any non-terminal state". -/
def ProviderTransition.matchesFrom (t : ProviderTransition)
    (s : StorageDealStatus) : Bool :=
  match t.fromStates with
  | none => !isTerminal s
  | some l => l.contains s

/-- The provider transition table, a one-to-one translation of
`StorageProviderImpl::makeFSMTransitions` (provider.cpp lines 204-317). -/
def makeFSMTransitions : List ProviderTransition :=
  [ ⟨ProviderEventOpen, some [STORAGE_DEAL_UNKNOWN], STORAGE_DEAL_VALIDATING⟩,
    ⟨ProviderEventNodeErrored, none, STORAGE_DEAL_FAILING⟩,
    ⟨ProviderEventDealRejected,
      some [STORAGE_DEAL_VALIDATING, STORAGE_DEAL_VERIFY_DATA],
      STORAGE_DEAL_FAILING⟩,
    ⟨ProviderEventDealAccepted, some [STORAGE_DEAL_VALIDATING],
      STORAGE_DEAL_PROPOSAL_ACCEPTED⟩,
    ⟨ProviderEventWaitingForManualData, some [STORAGE_DEAL_PROPOSAL_ACCEPTED],
      STORAGE_DEAL_WAITING_FOR_DATA⟩,
    ⟨ProviderEventDataTransferFailed,
      some [STORAGE_DEAL_PROPOSAL_ACCEPTED, STORAGE_DEAL_TRANSFERRING],
      STORAGE_DEAL_FAILING⟩,
    ⟨ProviderEventDataTransferInitiated, some [STORAGE_DEAL_PROPOSAL_ACCEPTED],
      STORAGE_DEAL_TRANSFERRING⟩,
    ⟨ProviderEventDataTransferCompleted, some [STORAGE_DEAL_TRANSFERRING],
      STORAGE_DEAL_VERIFY_DATA⟩,
    ⟨ProviderEventGeneratePieceCIDFailed, some [STORAGE_DEAL_VERIFY_DATA],
      STORAGE_DEAL_FAILING⟩,
    ⟨ProviderEventVerifiedData,
      some [STORAGE_DEAL_VERIFY_DATA, STORAGE_DEAL_WAITING_FOR_DATA],
      STORAGE_DEAL_ENSURE_PROVIDER_FUNDS⟩,
    ⟨ProviderEventFundingInitiated, some [STORAGE_DEAL_ENSURE_PROVIDER_FUNDS],
      STORAGE_DEAL_PROVIDER_FUNDING⟩,
    ⟨ProviderEventFunded,
      some [STORAGE_DEAL_PROVIDER_FUNDING, STORAGE_DEAL_ENSURE_PROVIDER_FUNDS],
      STORAGE_DEAL_PUBLISH⟩,
    ⟨ProviderEventDealPublishInitiated, some [STORAGE_DEAL_PUBLISH],
      STORAGE_DEAL_PUBLISHING⟩,
    ⟨ProviderEventDealPublishError, some [STORAGE_DEAL_PUBLISHING],
      STORAGE_DEAL_FAILING⟩,
    ⟨ProviderEventSendResponseFailed,
      some [STORAGE_DEAL_PUBLISHING, STORAGE_DEAL_FAILING],
      STORAGE_DEAL_ERROR⟩,
    ⟨ProviderEventDealPublished, some [STORAGE_DEAL_PUBLISHING],
      STORAGE_DEAL_STAGED⟩,
    ⟨ProviderEventFileStoreErrored,
      some [STORAGE_DEAL_STAGED, STORAGE_DEAL_SEALING, STORAGE_DEAL_ACTIVE],
      STORAGE_DEAL_FAILING⟩,
    ⟨ProviderEventDealHandoffFailed, some [STORAGE_DEAL_STAGED],
      STORAGE_DEAL_FAILING⟩,
    ⟨ProviderEventDealHandedOff, some [STORAGE_DEAL_STAGED],
      STORAGE_DEAL_SEALING⟩,
    ⟨ProviderEventDealActivationFailed, some [STORAGE_DEAL_SEALING],
      STORAGE_DEAL_FAILING⟩,
    ⟨ProviderEventDealActivated, some [STORAGE_DEAL_SEALING],
      STORAGE_DEAL_ACTIVE⟩,
    ⟨ProviderEventPieceStoreErrored, some [STORAGE_DEAL_ACTIVE],
      STORAGE_DEAL_FAILING⟩,
    ⟨ProviderEventDealCompleted, some [STORAGE_DEAL_ACTIVE],
      STORAGE_DEAL_COMPLETED⟩,
    ⟨ProviderEventUnableToLocatePiece, some [STORAGE_DEAL_ACTIVE],
      STORAGE_DEAL_FAILING⟩,
    ⟨ProviderEventReadMetadataErrored, some [STORAGE_DEAL_ACTIVE],
      STORAGE_DEAL_FAILING⟩,
    ⟨ProviderEventFailed, some [STORAGE_DEAL_FAILING], STORAGE_DEAL_ERROR⟩ ]

/-- Transition lookup: first table row whose event matches and whose
from-set contains the current state. -/
def findTransition (e : ProviderEvent) (s : StorageDealStatus) :
    Option ProviderTransition :=
  makeFSMTransitions.find? (fun t => t.event == e && t.matchesFrom s)

/-! ### Provider environment (external collaborators of `StorageProviderImpl`) -/

/-- Opaque error of an external API call (chain client / piece I/O). -/
structure ApiErr where
  code : Nat
  deriving DecidableEq, Repr

/-- `StateMinerInfo` result: worker address and sector size. -/
structure MinerInfo where
  worker : Address
  sector_size : Nat
  deriving DecidableEq, Repr

/-- The blockchain-client calls `StorageProviderImpl` makes (spec section 6);
`chainHead` already folds in `makeKey`. -/
structure Api where
  chainHead : Except ApiErr TipsetKey
  stateMinerInfo : Address → TipsetKey → Except ApiErr MinerInfo
  marketEnsureAvailable :
    Address → Address → TokenAmount → TipsetKey → Except ApiErr (Option CID)

/-- Provider context: the api, the piece-IO commitment function
(`generatePieceCommitment`) and the configured registered proof. -/
structure ProviderCtx where
  api : Api
  generatePieceCommitment :
    RegisteredProof → Buffer → Except ApiErr (CID × Nat)
  registered_proof : RegisteredProof

/-- `StorageProviderImpl::ensureFunds` (provider.cpp lines 188-202):
chain head, miner worker info, then `MarketEnsureAvailable` on the
proposal's provider and provider collateral. -/
def ensureFunds (ctx : ProviderCtx) (deal : MinerDeal) :
    Except ApiErr (Option CID) := do
  let tipset_key ← ctx.api.chainHead
  let worker_info ← ctx.api.stateMinerInfo
    deal.client_deal_proposal.proposal.provider tipset_key
  ctx.api.marketEnsureAvailable
    deal.client_deal_proposal.proposal.provider
    worker_info.worker
    deal.client_deal_proposal.proposal.provider_collateral
    tipset_key

/-! ### Provider FSM actions

Each `onProviderEvent*` callback body (provider.cpp lines 319-535) is
translated as a pure function from the deal to the updated deal plus the
list of events it sends back into the FSM (`fsm_->send`).  The
`CALLBACK_ACTION` wrapper then assigns `deal->state = to` after the body
has run; the sent events are processed afterwards against the updated
state, which the queue semantics below reproduces. -/

/-- Action body dispatch: `(deal', sent_events)` for each provider event.
Events whose callbacks are empty send nothing and leave the deal alone. -/
def actionBody (ctx : ProviderCtx) (e : ProviderEvent) (deal : MinerDeal) :
    MinerDeal × List ProviderEvent :=
  match e with
  | ProviderEventOpen =>
      -- TODO validate deal proposal (provider.cpp line 323): the source
      -- accepts unconditionally.
      (deal, [ProviderEventDealAccepted])
  | ProviderEventDealAccepted =>
      if deal.ref.transfer_type = kTransferTypeManual then
        (deal, [ProviderEventWaitingForManualData])
      else
        (deal, [])
  | ProviderEventFundingInitiated =>
      (deal, [ProviderEventFunded])
  | ProviderEventFunded =>
      (deal, [ProviderEventDealPublishInitiated])
  | ProviderEventVerifiedData =>
      match ensureFunds ctx deal with
      | .error _ => (deal, [ProviderEventNodeErrored])
      | .ok maybe_cid =>
        match maybe_cid with
        | some c =>
            ({ deal with add_funds_cid := some c },
             [ProviderEventFundingInitiated])
        | none =>
            (deal, [ProviderEventFundingInitiated])
  | ProviderEventDealPublishInitiated =>
      (deal, [ProviderEventDealPublished])
  | ProviderEventDealPublished =>
      (deal, [ProviderEventDealHandedOff])
  | ProviderEventDealHandedOff =>
      (deal, [ProviderEventDealActivated])
  | ProviderEventDealActivated =>
      (deal, [ProviderEventDealCompleted])
  | _ => (deal, [])

/-- One FSM step (`fsm_->send` handling one event): look up the transition
for `(event, deal.state)`; if none applies the send fails (`none`, the
source throws via `OUTCOME_EXCEPT`); otherwise run the action body and
assign the target state, returning the updated deal and the events the
action sent. -/
def stepEvent (ctx : ProviderCtx) (deal : MinerDeal) (e : ProviderEvent) :
    Option (MinerDeal × List ProviderEvent) :=
  match findTransition e deal.state with
  | none => none
  | some t =>
    let (deal1, sent) := actionBody ctx e deal
    some ({ deal1 with state := t.toState }, sent)

/-- Process a queue of FSM events with fuel, returning the final deal and
the sequence of states entered. -/
def processQueue (ctx : ProviderCtx) :
    Nat → MinerDeal → List ProviderEvent →
    MinerDeal × List StorageDealStatus
  | 0, deal, _ => (deal, [])
  | _ + 1, deal, [] => (deal, [])
  | fuel + 1, deal, e :: rest =>
    match stepEvent ctx deal e with
    | none => (deal, [])
    | some (deal2, sent) =>
      let (deal3, trace) := processQueue ctx fuel deal2 (rest ++ sent)
      (deal3, deal2.state :: trace)

/-- Send one event to the provider FSM and let the queued follow-ups run
(`fsm_->send` plus queue drain). -/
def sendAndRun (ctx : ProviderCtx) (fuel : Nat) (deal : MinerDeal)
    (e : ProviderEvent) : MinerDeal × List StorageDealStatus :=
  processQueue ctx fuel deal [e]

/-! ### `importDataForDeal` and the local deal registry -/

/-- `StorageMarketProviderError` (provider.cpp lines 539-553), plus the
propagated piece-IO error of the `OUTCOME_TRY` on
`generatePieceCommitment`. -/
inductive ProviderError where
  | LOCAL_DEAL_NOT_FOUND
  | PIECE_CID_DOESNT_MATCH
  | PieceIoError (e : ApiErr)
  deriving DecidableEq, Repr

/-- The provider's `local_deals_` registry keyed by proposal CID. -/
abbrev DealRegistry := List (CID × MinerDeal)

/-- `StorageProviderImpl::getDeal` (provider.cpp lines 88-95). -/
def getDeal (deals : DealRegistry) (proposal_cid : CID) :
    Except ProviderError MinerDeal :=
  match deals.lookup proposal_cid with
  | none => .error .LOCAL_DEAL_NOT_FOUND
  | some d => .ok d

/-- Replace the registry entry for `proposal_cid` (the source mutates the
shared `MinerDeal` object in place). -/
def setDeal (deals : DealRegistry) (proposal_cid : CID) (d : MinerDeal) :
    DealRegistry :=
  deals.map (fun p => if p.1 = proposal_cid then (p.1, d) else p)

/-- `StorageProviderImpl::importDataForDeal` (provider.cpp lines 106-118):
compute the piece commitment, look the deal up, fail with
`PIECE_CID_DOESNT_MATCH` when the commitment differs from the proposal's
piece CID, otherwise send `ProviderEventVerifiedData`.  The registry is
threaded through so that the state after an error is visible: no error
path mutates it. -/
def importDataForDeal (ctx : ProviderCtx) (fuel : Nat)
    (deals : DealRegistry) (proposal_cid : CID) (data : Buffer) :
    Except ProviderError Unit × DealRegistry :=
  match ctx.generatePieceCommitment ctx.registered_proof data with
  | .error e => (.error (.PieceIoError e), deals)
  | .ok piece_commitment =>
    match getDeal deals proposal_cid with
    | .error e => (.error e, deals)
    | .ok deal =>
      if piece_commitment.1 ≠ deal.client_deal_proposal.proposal.piece_cid
      then
        (.error .PIECE_CID_DOESNT_MATCH, deals)
      else
        let (deal', _) := sendAndRun ctx fuel deal ProviderEventVerifiedData
        (.ok (), setDeal deals proposal_cid deal')

/-! ### Concrete fixtures for evaluating the provider FSM -/

/-- A proposal whose `piece_size` (4096) exceeds the fixture miner's
sector size (2048). -/
def sampleProposal : DealProposal :=
  { piece_cid := 42, piece_size := 4096, verified := false, client := 1,
    provider := 1000, start_epoch := 10, end_epoch := 20,
    storage_price_per_epoch := 1, provider_collateral := 5,
    client_collateral := 0 }

/-- A fresh inbound manual-transfer deal as built in `handleDealStream`. -/
def sampleDeal : MinerDeal :=
  { client_deal_proposal := { proposal := sampleProposal,
                              client_signature := 7 },
    proposal_cid := 99, add_funds_cid := none,
    state := StorageDealStatus.STORAGE_DEAL_UNKNOWN,
    piece_path := "", metadata_path := "", connection_closed := false,
    message := "",
    ref := { transfer_type := kTransferTypeManual, root := none,
             piece_cid_ref := none },
    deal_id := none }

/-- Api fixture: miner sector size 2048, `MarketEnsureAvailable` sends no
funding message. -/
def apiNoFunding : Api :=
  { chainHead := .ok 0,
    stateMinerInfo := fun _ _ => .ok { worker := 5, sector_size := 2048 },
    marketEnsureAvailable := fun _ _ _ _ => .ok none }

/-- Api fixture where `MarketEnsureAvailable` returns funding message
CID 77. -/
def apiFunding : Api :=
  { chainHead := .ok 0,
    stateMinerInfo := fun _ _ => .ok { worker := 5, sector_size := 2048 },
    marketEnsureAvailable := fun _ _ _ _ => .ok (some 77) }

/-- Piece commitment fixture: CommP of a buffer is the sum of its bytes. -/
def sampleCommP : RegisteredProof → Buffer → Except ApiErr (CID × Nat) :=
  fun _ data => .ok (data.foldl (· + ·) 0, data.length)

/-- Provider context over `apiNoFunding`. -/
def ctxNoFunding : ProviderCtx :=
  { api := apiNoFunding, generatePieceCommitment := sampleCommP,
    registered_proof := 0 }

/-- Provider context over `apiFunding`. -/
def ctxFunding : ProviderCtx :=
  { api := apiFunding, generatePieceCommitment := sampleCommP,
    registered_proof := 0 }

/-! ### Local sector store (`local_store.cpp`) -/

/-- Individual sector file types (`SectorFileType` single bits). -/
inductive SectorFileType where
  | FTUnsealed
  | FTSealed
  | FTCache
  deriving DecidableEq, Repr, Fintype

/-- The underlying enum bit of a file type. -/
def SectorFileType.bit : SectorFileType → Nat
  | .FTUnsealed => 1
  | .FTSealed => 2
  | .FTCache => 4

/-- `kSectorFileTypes`, the iteration order of every per-type loop. -/
def kSectorFileTypes : List SectorFileType :=
  [.FTUnsealed, .FTSealed, .FTCache]

/-- Per-type subdirectory name (`toString(type)`): spec section 6 layout
`unsealed/`, `sealed/`, `cache/`. -/
def typeDirName : SectorFileType → String
  | .FTUnsealed => "unsealed"
  | .FTSealed => "sealed"
  | .FTCache => "cache"

/-- `SectorId`: miner actor id and per-miner sector number. -/
structure SectorId where
  miner : Nat
  sector : Nat
  deriving DecidableEq, Repr

/-- Storage identifier (UUID string). -/
abbrev StorageID := String

/-- Index entry for an attached storage (urls and capacity omitted: the
embedding does not consume them). -/
structure StorageInfo where
  id : StorageID
  weight : Nat
  can_seal : Bool
  can_store : Bool
  deriving DecidableEq, Repr

/-- `StoreErrors` of `store_error.hpp` as used by `local_store.cpp`;
`PathTypeNotFound` stands for the failure of `getPathByType` on an unset
slot (its implementation is outside the extracted sources). -/
inductive StoreErr where
  | InvalidSectorName
  | FindAndAllocate
  | RemoveSeveralFileTypes
  | NotFoundSector
  | CannotRemoveSector
  | CannotMoveSector
  | NotFoundStorage
  | InvalidStorageConfig
  | DuplicateStorage
  | CannotCreateDir
  | NotFoundPath
  | CannotInitLogger
  | PathTypeNotFound
  deriving DecidableEq, Repr

/-- Opaque error of the sector index or other external component, a
distinct error category from `StoreErr`. -/
structure IndexErr where
  code : Nat
  deriving DecidableEq, Repr

/-- Errors surfaced by local-store operations: its own store errors or
propagated external errors (`OUTCOME_TRY` keeps the original category). -/
inductive AcqErr where
  | store : StoreErr → AcqErr
  | index : IndexErr → AcqErr
  deriving DecidableEq, Repr

/-- Decimal value of a digit string. -/
def digitsToNat (l : List Char) : Nat :=
  l.foldl (fun a c => 10 * a + (c.toNat - 48)) 0

/-- `parseSectorId` (local_store.cpp lines 22-38): full match of the
regex `s-t0([0-9]+)-([0-9]+)`, with 64-bit bounds from `lexical_cast` to
`ActorId` / `SectorNumber`.  Since `[0-9]` excludes `-`, the first group
is exactly the maximal digit run before the next `-`, and the second
group must cover the whole remainder. -/
def parseSectorId (filename : String) : Except StoreErr SectorId :=
  match filename.toList with
  | 's' :: '-' :: 't' :: '0' :: rest =>
    match rest.dropWhile (fun c => c ≠ '-') with
    | '-' :: d2 =>
      if rest.takeWhile (fun c => c ≠ '-') ≠ [] ∧ d2 ≠ [] ∧
          (rest.takeWhile (fun c => c ≠ '-')).all Char.isDigit ∧
          d2.all Char.isDigit then
        if digitsToNat (rest.takeWhile (fun c => c ≠ '-')) < 2 ^ 64 ∧
            digitsToNat d2 < 2 ^ 64 then
          .ok { miner := digitsToNat (rest.takeWhile (fun c => c ≠ '-')),
                sector := digitsToNat d2 }
        else .error .InvalidSectorName
      else .error .InvalidSectorName
    | _ => .error .InvalidSectorName
  | _ => .error .InvalidSectorName

/-- `primitives::sector_file::sectorName`: spec section 6 file naming
`s-t0<miner_id>-<sector_number>`. -/
def sectorName (sid : SectorId) : String :=
  "s-t0" ++ toString sid.miner ++ "-" ++ toString sid.sector

/-- The full path of a sector file: `<root>/<type>/<sectorName>`. -/
def sectorPathOf (root : String) (t : SectorFileType) (sid : SectorId) :
    String :=
  root ++ "/" ++ typeDirName t ++ "/" ++ sectorName sid

/-- Per-file-type slots (`SectorPaths`-style `setPathByType` /
`getPathByType` holders). -/
structure ByType (α : Type) where
  unsealedSlot : Option α
  sealedSlot : Option α
  cacheSlot : Option α
  deriving DecidableEq, Repr

/-- All-empty slots. -/
def ByType.empty {α : Type} : ByType α := ⟨none, none, none⟩

/-- `getPathByType` as an optional read (the source errors on an unset
slot; callers below map `none` to `PathTypeNotFound`). -/
def ByType.getPathByType {α : Type} (p : ByType α) :
    SectorFileType → Option α
  | .FTUnsealed => p.unsealedSlot
  | .FTSealed => p.sealedSlot
  | .FTCache => p.cacheSlot

/-- `setPathByType`. -/
def ByType.setPathByType {α : Type} (p : ByType α) (t : SectorFileType)
    (v : α) : ByType α :=
  match t with
  | .FTUnsealed => { p with unsealedSlot := some v }
  | .FTSealed => { p with sealedSlot := some v }
  | .FTCache => { p with cacheSlot := some v }

/-- `AcquireSectorResponse`: acquired paths and the storages behind them. -/
structure AcquireSectorResponse where
  paths : ByType String
  stores : ByType StorageID
  deriving DecidableEq, Repr

/-- Read-only interface of the sector index consumed by `acquireSector`
(the index implementation is a separate component). -/
structure SectorIndexView where
  findSector :
    SectorId → SectorFileType → Bool → Except IndexErr (List StorageInfo)
  bestAlloc :
    SectorFileType → RegisteredProof → Bool → Except IndexErr (List StorageInfo)
  getInfo : StorageID → Except IndexErr StorageInfo

/-- The per-process path registry `storage_id → filesystem path`
(`paths_`). -/
abbrev PathMap := List (StorageID × String)

/-- First storage of the candidate list that is locally registered with a
non-empty path, with its root (inner `for (info : infos)` loop of both
acquire loops: iterate, skip unregistered or empty, break on first hit). -/
def pickLocal (paths : PathMap) : List StorageInfo →
    Option (StorageID × String)
  | [] => none
  | info :: rest =>
    match paths.lookup info.id with
    | none => pickLocal paths rest
    | some p => if p = "" then pickLocal paths rest else some (info.id, p)

/-- The `existing` loop of `acquireSectorWithoutLock` (local_store.cpp
lines 259-292): per type bit, look up holders; an index error is logged
and skipped, an absent local holder is skipped, a hit records path and
storage.  (The source also clears the processed bit from `existing`,
which cannot affect later iterations since each bit is visited once.) -/
def findExisting (idx : SectorIndexView) (paths : PathMap) (sid : SectorId)
    (existing : Nat) :
    List SectorFileType → AcquireSectorResponse → AcquireSectorResponse
  | [], acc => acc
  | t :: rest, acc =>
    if t.bit &&& existing = 0 then findExisting idx paths sid existing rest acc
    else
      match idx.findSector sid t false with
      | .error _ => findExisting idx paths sid existing rest acc
      | .ok infos =>
        match pickLocal paths infos with
        | none => findExisting idx paths sid existing rest acc
        | some (storage, root) =>
          findExisting idx paths sid existing rest
            { paths := acc.paths.setPathByType t (sectorPathOf root t sid),
              stores := acc.stores.setPathByType t storage }

/-- The `allocate` loop of `acquireSectorWithoutLock` (local_store.cpp
lines 294-331): per type bit, `storageBestAlloc` (its error propagates),
then the first locally registered candidate; none ⇒ `NotFoundPath`. -/
def allocateLoop (idx : SectorIndexView) (paths : PathMap) (sid : SectorId)
    (proof : RegisteredProof) (canSeal : Bool) (allocate : Nat) :
    List SectorFileType → AcquireSectorResponse →
    Except AcqErr AcquireSectorResponse
  | [], acc => .ok acc
  | t :: rest, acc =>
    if t.bit &&& allocate = 0 then
      allocateLoop idx paths sid proof canSeal allocate rest acc
    else
      match idx.bestAlloc t proof canSeal with
      | .error e => .error (.index e)
      | .ok infos =>
        match pickLocal paths infos with
        | none => .error (.store .NotFoundPath)
        | some (storage, root) =>
          allocateLoop idx paths sid proof canSeal allocate rest
            { paths := acc.paths.setPathByType t (sectorPathOf root t sid),
              stores := acc.stores.setPathByType t storage }

/-- `LocalStore::acquireSectorWithoutLock` (local_store.cpp lines
251-334). -/
def acquireSectorWithoutLock (idx : SectorIndexView) (paths : PathMap)
    (sid : SectorId) (proof : RegisteredProof) (existing allocate : Nat)
    (canSeal : Bool) : Except AcqErr AcquireSectorResponse :=
  allocateLoop idx paths sid proof canSeal allocate kSectorFileTypes
    (findExisting idx paths sid existing kSectorFileTypes
      { paths := ByType.empty, stores := ByType.empty })

/-- `LocalStore::acquireSector` (local_store.cpp lines 49-63): the
disjointness guard `(existing | allocate) != (existing ^ allocate)` fails
with `FindAndAllocate` before any lookup. -/
def acquireSector (idx : SectorIndexView) (paths : PathMap)
    (sid : SectorId) (proof : RegisteredProof) (existing allocate : Nat)
    (canSeal : Bool) : Except AcqErr AcquireSectorResponse :=
  if (existing ||| allocate) ≠ (existing ^^^ allocate) then
    .error (.store .FindAndAllocate)
  else
    acquireSectorWithoutLock idx paths sid proof existing allocate canSeal

/-! ### Stateful sector index

The `SectorIndex` implementation is outside the extracted sources; the
state and operations below are modelled from the spec (section 4.5):
attach registers a storage, declare/drop record and remove presence,
`storageFindSector` lists every holder best-weight first,
`storageBestAlloc` lists candidates best-weight first filtered by the
`can_seal` flag (capacity filtering is not consumed by the claims and is
left out). -/

/-- Modelled from the spec: in-memory index state — attached storages and
the declared `(storage, sector, file_type)` presence set. -/
structure IndexState where
  infos : List StorageInfo
  declared : List (StorageID × SectorId × SectorFileType)
  deriving DecidableEq, Repr

/-- Modelled from the spec: `storageAttach` registers a storage. -/
def IndexState.attach (idx : IndexState) (info : StorageInfo) : IndexState :=
  { idx with infos := idx.infos ++ [info] }

/-- Modelled from the spec: `storageDeclareSector` records presence. -/
def IndexState.declareSector (idx : IndexState) (id : StorageID)
    (sid : SectorId) (t : SectorFileType) : IndexState :=
  if (id, sid, t) ∈ idx.declared then idx
  else { idx with declared := idx.declared ++ [(id, sid, t)] }

/-- Modelled from the spec: `storageDropSector` removes the record. -/
def IndexState.dropSector (idx : IndexState) (id : StorageID)
    (sid : SectorId) (t : SectorFileType) : IndexState :=
  { idx with declared := idx.declared.filter (fun e => e ≠ (id, sid, t)) }

/-- Insertion sort of storages by descending weight (best-weight first). -/
def weightSort (l : List StorageInfo) : List StorageInfo :=
  let rec insert (i : StorageInfo) : List StorageInfo → List StorageInfo
    | [] => [i]
    | j :: rest =>
      if j.weight < i.weight then i :: j :: rest else j :: insert i rest
  l.foldr insert []

/-- Modelled from the spec: `getStorageInfo`. -/
def IndexState.getInfo (idx : IndexState) (id : StorageID) :
    Except IndexErr StorageInfo :=
  match idx.infos.find? (fun i => i.id == id) with
  | some i => .ok i
  | none => .error { code := 0 }

/-- Modelled from the spec: the read-only view of the index state backing
`storageFindSector` / `storageBestAlloc` / `getStorageInfo`. -/
def IndexState.view (idx : IndexState) : SectorIndexView :=
  { findSector := fun sid t _ =>
      .ok (weightSort (idx.infos.filter (fun i => (i.id, sid, t) ∈ idx.declared))),
    bestAlloc := fun _ _ canSeal =>
      .ok (weightSort (idx.infos.filter
            (fun i => if canSeal then i.can_seal else i.can_store))),
    getInfo := idx.getInfo }

/-! ### `moveStorage` -/

/-- Filesystem effects consumed by `moveStorage`: whether
`boost::filesystem::rename(src, dst)` succeeds. -/
structure MoveEnv where
  renameOk : String → String → Bool

/-- The per-type loop of `LocalStore::moveStorage` (local_store.cpp lines
122-152), threading the index state so that the state at an error exit is
visible: skip types outside the mask or already stored on a `can_store`
storage, otherwise drop the source declaration, rename, and declare the
destination only after a successful rename. -/
def moveLoop (env : MoveEnv) (sid : SectorId) (types : Nat)
    (dest src : AcquireSectorResponse) :
    List SectorFileType → IndexState → Except AcqErr Unit × IndexState
  | [], idx => (.ok (), idx)
  | t :: rest, idx =>
    if t.bit &&& types = 0 then moveLoop env sid types dest src rest idx
    else
      match src.stores.getPathByType t with
      | none => (.error (.store .PathTypeNotFound), idx)
      | some source_storage_id =>
        match idx.getInfo source_storage_id with
        | .error e => (.error (.index e), idx)
        | .ok sst =>
          match dest.stores.getPathByType t with
          | none => (.error (.store .PathTypeNotFound), idx)
          | some dest_storage_id =>
            match idx.getInfo dest_storage_id with
            | .error e => (.error (.index e), idx)
            | .ok dst =>
              if sst.id = dst.id then moveLoop env sid types dest src rest idx
              else if sst.can_store then
                moveLoop env sid types dest src rest idx
              else
                let idx1 := idx.dropSector source_storage_id sid t
                match src.paths.getPathByType t,
                    dest.paths.getPathByType t with
                | some source_path, some dest_path =>
                  if env.renameOk source_path dest_path then
                    moveLoop env sid types dest src rest
                      (idx1.declareSector dest_storage_id sid t)
                  else (.error (.store .CannotMoveSector), idx1)
                | _, _ => (.error (.store .PathTypeNotFound), idx1)

/-- `LocalStore::moveStorage` (local_store.cpp lines 108-155): acquire
destination slots (allocate `types`), acquire source slots (existing
`types`), then run the per-type move loop. -/
def moveStorage (env : MoveEnv) (idx : IndexState) (paths : PathMap)
    (sid : SectorId) (proof : RegisteredProof) (types : Nat) :
    Except AcqErr Unit × IndexState :=
  match acquireSectorWithoutLock idx.view paths sid proof 0 types false with
  | .error e => (.error e, idx)
  | .ok dest =>
    match acquireSectorWithoutLock idx.view paths sid proof types 0 false
    with
    | .error e => (.error e, idx)
    | .ok src => moveLoop env sid types dest src kSectorFileTypes idx

/-! ### `openPath` -/

/-- The parsed `<path>/<MetaFile>` contents (`LocalStorageMeta`). -/
structure LocalStorageMeta where
  id : StorageID
  weight : Nat
  can_seal : Bool
  can_store : Bool
  deriving DecidableEq, Repr

/-- Filesystem as `openPath` observes it.  `meta` is `none` when the meta
file is unreadable or fails to parse/decode (the source's codec error is
collapsed into `InvalidStorageConfig` below); `listing` is `none` when the
per-type subdirectory does not exist; `statOk`/`createDirOk` are the
outcomes of `getStat` and `create_directories`. -/
structure FileSystem where
  meta : String → Option LocalStorageMeta
  listing : String → SectorFileType → Option (List String)
  statOk : String → Bool
  createDirOk : String → Bool

/-- Local-store state: the path registry plus the index. -/
structure LocalStoreState where
  paths : PathMap
  index : IndexState
  deriving DecidableEq, Repr

/-- The filename scan of one subdirectory (local_store.cpp lines 215-223):
`OUTCOME_TRY(parseSectorId …)` propagates `InvalidSectorName`, aborting
the scan; each parsed name is declared.  Returns the error, if any, and
the index state reached. -/
def scanNames (id : StorageID) (t : SectorFileType) :
    List String → IndexState → Option StoreErr × IndexState
  | [], idx => (none, idx)
  | name :: rest, idx =>
    match parseSectorId name with
    | .error e => (some e, idx)
    | .ok sid => scanNames id t rest (idx.declareSector id sid t)

/-- The per-type directory pass of `openPath` (local_store.cpp lines
206-224): missing directory ⇒ create it (no declarations), otherwise scan
its filenames. -/
def scanTypes (fs : FileSystem) (path : String) (id : StorageID) :
    List SectorFileType → IndexState → Option StoreErr × IndexState
  | [], idx => (none, idx)
  | t :: rest, idx =>
    match fs.listing path t with
    | none =>
      if fs.createDirOk (path ++ "/" ++ typeDirName t) then
        scanTypes fs path id rest idx
      else (some .CannotCreateDir, idx)
    | some names =>
      match scanNames id t names idx with
      | (some e, idx') => (some e, idx')
      | (none, idx') => scanTypes fs path id rest idx'

/-- `LocalStore::openPath` (local_store.cpp lines 168-229): read and
decode the meta file, reject a duplicate `storage_id` before any
mutation, `getStat`, attach, scan the per-type subdirectories, and only
then register the path.  The state is threaded so the state after an
error is visible. -/
def openPath (fs : FileSystem) (s : LocalStoreState) (path : String) :
    Except AcqErr Unit × LocalStoreState :=
  match fs.meta path with
  | none => (.error (.store .InvalidStorageConfig), s)
  | some meta =>
    match s.paths.lookup meta.id with
    | some _ => (.error (.store .DuplicateStorage), s)
    | none =>
      if fs.statOk path then
        let idx0 := s.index.attach
          { id := meta.id, weight := meta.weight,
            can_seal := meta.can_seal, can_store := meta.can_store }
        match scanTypes fs path meta.id kSectorFileTypes idx0 with
        | (some e, idx') => (.error (.store e), { s with index := idx' })
        | (none, idx') =>
          (.ok (), { paths := s.paths ++ [(meta.id, path)], index := idx' })
      else (.error (.index { code := 1 }), s)

/-- The sample deal parked in `waiting_for_data` (manual transfer). -/
def waitingDeal : MinerDeal :=
  { sampleDeal with state := StorageDealStatus.STORAGE_DEAL_WAITING_FOR_DATA }

/-- The sample deal at `verify_data`. -/
def verifyDeal : MinerDeal :=
  { sampleDeal with state := StorageDealStatus.STORAGE_DEAL_VERIFY_DATA }

/-- Registry holding the waiting deal under its proposal CID. -/
def sampleRegistry : DealRegistry := [(99, waitingDeal)]

/-! ### Concrete fixtures for the local store -/

/-- The fixture sector `{miner 1000, sector 7}`. -/
def sid0 : SectorId := { miner := 1000, sector := 7 }

/-- A sealing-only storage currently holding the sealed file. -/
def srcInfo : StorageInfo :=
  { id := "src1", weight := 10, can_seal := true, can_store := false }

/-- A `can_store` storage, the move destination. -/
def dstInfo : StorageInfo :=
  { id := "dst1", weight := 5, can_seal := false, can_store := true }

/-- Index state for the move scenario: sealed file declared on `src1`. -/
def moveIdx : IndexState :=
  { infos := [srcInfo, dstInfo],
    declared := [("src1", sid0, .FTSealed)] }

/-- Path registry for the move scenario. -/
def movePaths : PathMap := [("src1", "/seal"), ("dst1", "/store")]

/-- Move environment whose rename always fails. -/
def envRenameFail : MoveEnv := { renameOk := fun _ _ => false }

/-- A `SectorIndexView` that finds nothing and allocates nothing. -/
def emptyView : SectorIndexView :=
  { findSector := fun _ _ _ => .ok [],
    bestAlloc := fun _ _ _ => .ok [],
    getInfo := fun _ => .error { code := 0 } }

/-- Filesystem fixture for `openPath`: one storage rooted at `/tmp/s1`
with well-formed sector files. -/
def fsGood : FileSystem :=
  { meta := fun p =>
      if p = "/tmp/s1" then
        some { id := "s1", weight := 10, can_seal := true, can_store := true }
      else none,
    listing := fun p t =>
      if p = "/tmp/s1" then
        match t with
        | .FTUnsealed => some ["s-t01000-7"]
        | .FTSealed => some ["s-t01000-7"]
        | .FTCache => some []
      else none,
    statOk := fun _ => true,
    createDirOk := fun _ => true }

/-- Like `fsGood` but the unsealed directory holds a filename that does
not match the sector-name regex, while the sealed directory still holds a
matching one. -/
def fsBadName : FileSystem :=
  { fsGood with
      listing := fun p t =>
        if p = "/tmp/s1" then
          match t with
          | .FTUnsealed => some ["junk.txt"]
          | .FTSealed => some ["s-t01000-7"]
          | .FTCache => some []
        else none }

/-- Empty local-store state. -/
def emptyStore : LocalStoreState :=
  { paths := [], index := { infos := [], declared := [] } }

/-- Missing-holder predicate for one `existing` bit: the index lookup for
`(sector, type)` errors, or none of the storages it returns is locally
registered with a non-empty path. -/
def noLocalHolder (idx : SectorIndexView) (paths : PathMap)
    (sid : SectorId) (t : SectorFileType) : Prop :=
  (∃ e, idx.findSector sid t false = .error e) ∨
  (∃ infos, idx.findSector sid t false = .ok infos ∧
    pickLocal paths infos = none)

/-! ### Chain-event watcher (spec section 4.4)

Only the `Events` interface (`events.hpp`) and its tests are in the
extracted sources; the watcher algorithm below is modelled from the
spec: two tables (`pending_precommit` and `precommitted`), populated on
`PreCommitSector` messages whose `deal_ids` hit a pending subscription
and resolved on a `ProveCommitSector` for the same provider with the
recorded sector number. -/

/-- Modelled from the spec: the miner-actor message kinds the watcher
inspects, with decoded parameters. -/
inductive WatchedMethod where
  | preCommit (deal_ids : List DealId) (sector : SectorNumber)
  | proveCommit (sector : SectorNumber)
  | other
  deriving DecidableEq, Repr

/-- A message applied in a tipset block, as the watcher sees it. -/
structure ChainMsg where
  toAddr : Address
  method : WatchedMethod
  deriving DecidableEq, Repr

/-- Modelled from the spec: watcher state — pending subscription keys,
the `precommitted` table, and the keys whose futures resolved
successfully. -/
structure WatcherState where
  pending : List (Address × DealId)
  precommitted : List ((Address × DealId) × SectorNumber)
  resolved : List (Address × DealId)
  deriving DecidableEq, Repr

/-- Watcher state with no subscriptions. -/
def initWatcher : WatcherState :=
  { pending := [], precommitted := [], resolved := [] }

/-- `onDealSectorCommitted`: register a pending subscription for
`(provider, deal_id)`; the returned future is pending until resolved. -/
def onDealSectorCommitted (w : WatcherState) (provider : Address)
    (deal_id : DealId) : WatcherState :=
  { w with pending := w.pending ++ [(provider, deal_id)] }

/-- Modelled from the spec: apply one message of an `APPLY` head-change.
A `PreCommitSector` to a watched provider records the sector for every
subscribed deal id it lists; a `ProveCommitSector` resolves every
precommitted entry of the same provider with the matching sector,
dropping both table entries. -/
def applyMessage (w : WatcherState) (m : ChainMsg) : WatcherState :=
  match m.method with
  | .preCommit deal_ids sector =>
      { w with
          precommitted := w.precommitted ++
            (deal_ids.filter (fun d => decide ((m.toAddr, d) ∈ w.pending))).map
              (fun d => ((m.toAddr, d), sector)) }
  | .proveCommit sector =>
      { pending := w.pending.filter
          (fun pd =>
            !(decide (pd.1 = m.toAddr) &&
              decide ((pd, sector) ∈ w.precommitted))),
        precommitted := w.precommitted.filter
          (fun e => !(decide (e.1.1 = m.toAddr) && decide (e.2 = sector))),
        resolved := w.resolved ++
          w.pending.filter
            (fun pd =>
              decide (pd.1 = m.toAddr) &&
              decide ((pd, sector) ∈ w.precommitted)) }
  | .other => w

/-! ## Theorems settling the claims -/

/-- C1: the claim says the validating action verifies the client signature,
`provider == self` and `piece_size ≤ sector_size`, and that an oversize
piece moves the deal `validating → failing` with
`PieceSizeGreaterSectorSize`.  The source `onProviderEventOpen` is a
`TODO validate deal proposal` stub that accepts unconditionally: at the
failing input (piece_size 4096, miner sector size 2048) the deal runs
`validating → proposal_accepted → waiting_for_data`, never reaching
`failing`, with no error message recorded. -/
theorem c1_open_accepts_oversize_piece :
    sampleProposal.piece_size = 4096 ∧
    (match apiNoFunding.stateMinerInfo sampleProposal.provider 0 with
      | .ok info => info.sector_size
      | .error _ => 0) = 2048 ∧
    (sendAndRun ctxNoFunding 20 sampleDeal
        ProviderEvent.ProviderEventOpen).2 =
      [StorageDealStatus.STORAGE_DEAL_VALIDATING,
       StorageDealStatus.STORAGE_DEAL_PROPOSAL_ACCEPTED,
       StorageDealStatus.STORAGE_DEAL_WAITING_FOR_DATA] ∧
    StorageDealStatus.STORAGE_DEAL_FAILING ∉
      (sendAndRun ctxNoFunding 20 sampleDeal
        ProviderEvent.ProviderEventOpen).2 ∧
    (sendAndRun ctxNoFunding 20 sampleDeal
        ProviderEvent.ProviderEventOpen).1.message = "" := by
  refine ⟨rfl, rfl, by decide, by decide, by decide⟩

/-- Transition-table lookup fact used by several proofs: `VerifiedData`
from `verify_data` targets `ensure_provider_funds`. -/
theorem findTransition_verifiedData :
    findTransition ProviderEvent.ProviderEventVerifiedData
        StorageDealStatus.STORAGE_DEAL_VERIFY_DATA =
      some ⟨ProviderEvent.ProviderEventVerifiedData,
        some [StorageDealStatus.STORAGE_DEAL_VERIFY_DATA,
              StorageDealStatus.STORAGE_DEAL_WAITING_FOR_DATA],
        StorageDealStatus.STORAGE_DEAL_ENSURE_PROVIDER_FUNDS⟩ := rfl

/-- Transition-table lookup fact: `FundingInitiated` from
`ensure_provider_funds` targets `provider_funding`. -/
theorem findTransition_fundingInitiated :
    findTransition ProviderEvent.ProviderEventFundingInitiated
        StorageDealStatus.STORAGE_DEAL_ENSURE_PROVIDER_FUNDS =
      some ⟨ProviderEvent.ProviderEventFundingInitiated,
        some [StorageDealStatus.STORAGE_DEAL_ENSURE_PROVIDER_FUNDS],
        StorageDealStatus.STORAGE_DEAL_PROVIDER_FUNDING⟩ := rfl

/-- C2 counterexample: at a concrete deal parked in `waiting_for_data`,
`importDataForDeal` with bytes whose CommP (6) differs from the proposal's
piece CID (42) returns the `PIECE_CID_DOESNT_MATCH` error to the caller
but performs no FSM transition: the registry is unchanged, the deal's
state silently remains `waiting_for_data` and its `message` records
nothing, refuting the claimed transition to `failing`. -/
theorem c2_counterexample :
    importDataForDeal ctxNoFunding 20 sampleRegistry 99 [1, 2, 3] =
      (.error .PIECE_CID_DOESNT_MATCH, sampleRegistry) ∧
    (sampleRegistry.lookup 99).map MinerDeal.state =
      some StorageDealStatus.STORAGE_DEAL_WAITING_FOR_DATA ∧
    (sampleRegistry.lookup 99).map MinerDeal.message = some "" :=
  ⟨rfl, rfl, rfl⟩

/-- C2 (corrected): for every registered deal, `importDataForDeal` with
bytes whose computed CommP differs from the proposal's piece CID returns
the `PIECE_CID_DOESNT_MATCH` error and leaves the deal registry — hence
the deal's FSM state and record — unchanged; no transition to `failing`
occurs. -/
theorem c2_mismatch_returns_error_without_transition
    (ctx : ProviderCtx) (fuel : Nat) (deals : DealRegistry)
    (pcid : CID) (data : Buffer) (deal : MinerDeal) (commp : CID) (n : Nat)
    (hdeal : deals.lookup pcid = some deal)
    (hcommp : ctx.generatePieceCommitment ctx.registered_proof data =
      .ok (commp, n))
    (hne : commp ≠ deal.client_deal_proposal.proposal.piece_cid) :
    importDataForDeal ctx fuel deals pcid data =
      (.error .PIECE_CID_DOESNT_MATCH, deals) := by
  simp [importDataForDeal, getDeal, hdeal, hcommp, hne]

/-- C2 witness: the corrected statement applied at the concrete mismatch
input. -/
theorem c2_mismatch_witness :
    importDataForDeal ctxNoFunding 20 sampleRegistry 99 [1, 2, 3] =
      (.error .PIECE_CID_DOESNT_MATCH, sampleRegistry) :=
  c2_mismatch_returns_error_without_transition ctxNoFunding 20
    sampleRegistry 99 [1, 2, 3] waitingDeal 6 3 rfl rfl (by decide)

/-- C3 counterexample: over an api whose `MarketEnsureAvailable` returns
no CID, the deal at `verify_data` still enters `provider_funding` (the
source posts `FundingInitiated` on both branches), refuting the claim
that it proceeds directly to publish without entering
`provider_funding`. -/
theorem c3_counterexample :
    ensureFunds ctxNoFunding verifyDeal = .ok none ∧
    StorageDealStatus.STORAGE_DEAL_PROVIDER_FUNDING ∈
      (sendAndRun ctxNoFunding 20 verifyDeal
        ProviderEvent.ProviderEventVerifiedData).2 ∧
    (sendAndRun ctxNoFunding 20 verifyDeal
        ProviderEvent.ProviderEventVerifiedData).1.add_funds_cid = none :=
  ⟨rfl, by decide, rfl⟩

/-- C3 (corrected): in the provider's ensure-funds action, when
`MarketEnsureAvailable` returns a funding-message CID the deal records it
in `add_funds_cid` and enters `provider_funding`; when it returns no CID
the deal does not proceed directly, but posts the same
`FundingInitiated` event and also passes through `provider_funding`,
leaving `add_funds_cid` untouched. -/
theorem c3_both_branches_enter_provider_funding
    (ctx : ProviderCtx) (deal : MinerDeal) (c : CID)
    (hstate : deal.state = StorageDealStatus.STORAGE_DEAL_VERIFY_DATA) :
    (ensureFunds ctx deal = .ok (some c) →
      stepEvent ctx deal ProviderEvent.ProviderEventVerifiedData =
        some ({ deal with
                  add_funds_cid := some c,
                  state :=
                    StorageDealStatus.STORAGE_DEAL_ENSURE_PROVIDER_FUNDS },
              [ProviderEvent.ProviderEventFundingInitiated]) ∧
      stepEvent ctx
          { deal with
              add_funds_cid := some c,
              state := StorageDealStatus.STORAGE_DEAL_ENSURE_PROVIDER_FUNDS }
          ProviderEvent.ProviderEventFundingInitiated =
        some ({ deal with
                  add_funds_cid := some c,
                  state := StorageDealStatus.STORAGE_DEAL_PROVIDER_FUNDING },
              [ProviderEvent.ProviderEventFunded])) ∧
    (ensureFunds ctx deal = .ok none →
      stepEvent ctx deal ProviderEvent.ProviderEventVerifiedData =
        some ({ deal with
                  state :=
                    StorageDealStatus.STORAGE_DEAL_ENSURE_PROVIDER_FUNDS },
              [ProviderEvent.ProviderEventFundingInitiated]) ∧
      stepEvent ctx
          { deal with
              state := StorageDealStatus.STORAGE_DEAL_ENSURE_PROVIDER_FUNDS }
          ProviderEvent.ProviderEventFundingInitiated =
        some ({ deal with
                  state := StorageDealStatus.STORAGE_DEAL_PROVIDER_FUNDING },
              [ProviderEvent.ProviderEventFunded])) := by
  constructor <;> intro h <;> refine ⟨?_, ?_⟩ <;>
    simp [stepEvent, hstate, findTransition_verifiedData,
      findTransition_fundingInitiated, actionBody, h]

/-- C3 witness: the corrected statement applied at the concrete contexts
(funding CID 77 recorded on the some-branch fixture; no CID recorded but
`provider_funding` still entered on the none-branch fixture). -/
theorem c3_both_branches_witness :
    stepEvent ctxFunding verifyDeal
        ProviderEvent.ProviderEventVerifiedData =
      some ({ verifyDeal with
                add_funds_cid := some 77,
                state :=
                  StorageDealStatus.STORAGE_DEAL_ENSURE_PROVIDER_FUNDS },
            [ProviderEvent.ProviderEventFundingInitiated]) ∧
    stepEvent ctxNoFunding verifyDeal
        ProviderEvent.ProviderEventVerifiedData =
      some ({ verifyDeal with
                state :=
                  StorageDealStatus.STORAGE_DEAL_ENSURE_PROVIDER_FUNDS },
            [ProviderEvent.ProviderEventFundingInitiated]) :=
  ⟨((c3_both_branches_enter_provider_funding ctxFunding verifyDeal 77
      rfl).1 rfl).1,
   ((c3_both_branches_enter_provider_funding ctxNoFunding verifyDeal 77
      rfl).2 rfl).1⟩

/-- C7: the provider deal FSM never transitions out of a terminal state:
no transition of `makeFSMTransitions` matches from `completed`, `error`,
`expired`, `slashed` or `rejected` (with `fromAny` expanding, per spec,
only to non-terminal states). -/
theorem c7_no_transition_from_terminal :
    ∀ t ∈ makeFSMTransitions, ∀ s : StorageDealStatus,
      t.matchesFrom s = true → isTerminal s = false := by
  decide

/-- C7 witness: the theorem applied to the `ProviderEventOpen` row at
state `unknown`. -/
theorem c7_no_transition_witness :
    isTerminal StorageDealStatus.STORAGE_DEAL_UNKNOWN = false :=
  c7_no_transition_from_terminal
    ⟨ProviderEvent.ProviderEventOpen,
      some [StorageDealStatus.STORAGE_DEAL_UNKNOWN],
      StorageDealStatus.STORAGE_DEAL_VALIDATING⟩
    (by decide) StorageDealStatus.STORAGE_DEAL_UNKNOWN (by decide)

/-! ### Helper lemmas for the local store -/

/-- Bitmask fact behind the `acquireSector` guard: `or` equals `xor`
exactly when the masks share no bit. -/
theorem lor_eq_xor_iff_land_eq_zero (x y : Nat) :
    (x ||| y) = (x ^^^ y) ↔ x &&& y = 0 := by
  constructor
  · intro h
    apply Nat.zero_of_testBit_eq_false
    intro i
    have hb := congrArg (fun n => Nat.testBit n i) h
    simp only [Nat.testBit_lor, Nat.testBit_xor] at hb
    rw [Nat.testBit_land]
    cases hx : x.testBit i <;> cases hy : y.testBit i <;> simp_all
  · intro h
    apply Nat.eq_of_testBit_eq
    intro i
    have hb := congrArg (fun n => Nat.testBit n i) h
    simp only [Nat.testBit_land, Nat.zero_testBit] at hb
    simp only [Nat.testBit_lor, Nat.testBit_xor]
    cases hx : x.testBit i <;> cases hy : y.testBit i <;> simp_all

/-- A power of two is disjoint from any number whose bit `k` is clear. -/
theorem two_pow_land_eq_zero_of_testBit_false (k x : Nat)
    (h : x.testBit k = false) : 2 ^ k &&& x = 0 := by
  apply Nat.zero_of_testBit_eq_false
  intro i
  rw [Nat.testBit_land]
  by_cases hik : i = k
  · subst hik; simp [h]
  · simp [Nat.testBit_two_pow_of_ne (fun hk => hik hk.symm)]

/-- A single bit contained in `x` cannot also lie in a mask disjoint
from `x`. -/
theorem land_disjoint_single_bit (k x y : Nat)
    (hx : 2 ^ k &&& x ≠ 0) (hxy : x &&& y = 0) : 2 ^ k &&& y = 0 := by
  have hxk : x.testBit k = true := by
    by_contra hc
    exact hx (two_pow_land_eq_zero_of_testBit_false k x (by simpa using hc))
  have hyk : y.testBit k = false := by
    have hb := congrArg (fun n => Nat.testBit n k) hxy
    simp only [Nat.testBit_land, Nat.zero_testBit, hxk] at hb
    simpa using hb
  exact two_pow_land_eq_zero_of_testBit_false k y hyk

/-- `SectorFileType` version of `land_disjoint_single_bit`. -/
theorem bit_disjoint (t : SectorFileType) (x y : Nat)
    (hx : t.bit &&& x ≠ 0) (hxy : x &&& y = 0) : t.bit &&& y = 0 := by
  cases t
  · exact land_disjoint_single_bit 0 x y (by simpa [SectorFileType.bit] using hx) hxy
  · exact land_disjoint_single_bit 1 x y (by simpa [SectorFileType.bit] using hx) hxy
  · exact land_disjoint_single_bit 2 x y (by simpa [SectorFileType.bit] using hx) hxy

/-- Every error exit of the allocate loop is `NotFoundPath` or a
propagated index error — never `FindAndAllocate`. -/
theorem allocateLoop_error_shape (idx : SectorIndexView) (paths : PathMap)
    (sid : SectorId) (proof : RegisteredProof) (canSeal : Bool)
    (allocate : Nat) :
    ∀ (ts : List SectorFileType) (acc : AcquireSectorResponse) (e : AcqErr),
      allocateLoop idx paths sid proof canSeal allocate ts acc = .error e →
      e = .store .NotFoundPath ∨ ∃ ie, e = .index ie := by
  intro ts
  induction ts with
  | nil => intro acc e h; simp [allocateLoop] at h
  | cons t rest ih =>
    intro acc e h
    rw [allocateLoop] at h
    split at h
    · exact ih _ _ h
    · split at h
      · exact .inr ⟨_, ((Except.error.injEq _ _).mp h).symm⟩
      · split at h
        · exact .inl ((Except.error.injEq _ _).mp h).symm
        · exact ih _ _ h

/-- C8: the `acquireSector` disjointness guard — overlapping `existing`
and `allocate` masks fail with `FindAndAllocate` before any lookup, and
with disjoint masks `FindAndAllocate` is never returned. -/
theorem c8_overlap_iff_find_and_allocate (idx : SectorIndexView)
    (paths : PathMap) (sid : SectorId) (proof : RegisteredProof)
    (canSeal : Bool) (existing allocate : Nat) :
    (existing &&& allocate ≠ 0 →
      acquireSector idx paths sid proof existing allocate canSeal =
        .error (.store .FindAndAllocate)) ∧
    (existing &&& allocate = 0 →
      acquireSector idx paths sid proof existing allocate canSeal ≠
        .error (.store .FindAndAllocate)) := by
  constructor
  · intro h
    have hne : (existing ||| allocate) ≠ (existing ^^^ allocate) :=
      fun hc => h ((lor_eq_xor_iff_land_eq_zero existing allocate).mp hc)
    simp [acquireSector, hne]
  · intro h hc
    have heq : (existing ||| allocate) = (existing ^^^ allocate) :=
      (lor_eq_xor_iff_land_eq_zero existing allocate).mpr h
    rw [acquireSector, if_neg (by simp [heq]),
      acquireSectorWithoutLock] at hc
    rcases allocateLoop_error_shape idx paths sid proof canSeal allocate
        kSectorFileTypes _ _ hc with h1 | ⟨ie, h2⟩
    · simp at h1
    · simp at h2

/-- C8 witness: with both masks `unsealed` the call fails with
`FindAndAllocate`; with `existing = unsealed`, `allocate = sealed` it
does not. -/
theorem c8_overlap_witness :
    acquireSector emptyView [] sid0 0 1 1 true =
      .error (.store .FindAndAllocate) ∧
    acquireSector emptyView [] sid0 0 1 2 true ≠
      .error (.store .FindAndAllocate) :=
  ⟨(c8_overlap_iff_find_and_allocate emptyView [] sid0 0 true 1 1).1
      (by decide),
   (c8_overlap_iff_find_and_allocate emptyView [] sid0 0 true 1 2).2
      (by decide)⟩

/-- The only error `parseSectorId` produces is `InvalidSectorName`. -/
theorem parseSectorId_error_eq (n : String) (e : StoreErr)
    (h : parseSectorId n = .error e) : e = .InvalidSectorName := by
  rw [parseSectorId] at h
  repeat' split at h
  all_goals simp_all

/-- The only error a directory scan produces is `InvalidSectorName`. -/
theorem scanNames_error_eq (id : StorageID) (t : SectorFileType) :
    ∀ (names : List String) (idx : IndexState) (e : StoreErr),
      (scanNames id t names idx).1 = some e → e = .InvalidSectorName := by
  intro names
  induction names with
  | nil => intro idx e h; simp [scanNames] at h
  | cons n rest ih =>
    intro idx e h
    rw [scanNames] at h
    split at h
    · rename_i e' hp
      simp at h
      exact h ▸ parseSectorId_error_eq n e' hp
    · exact ih _ _ h

/-- A scan that finishes without error parsed every filename. -/
theorem scanNames_none_parses (id : StorageID) (t : SectorFileType) :
    ∀ (names : List String) (idx : IndexState),
      (scanNames id t names idx).1 = none →
      ∀ n ∈ names, ∃ sid, parseSectorId n = .ok sid := by
  intro names
  induction names with
  | nil => intro idx _ n hn; simp at hn
  | cons m rest ih =>
    intro idx h n hn
    rw [scanNames] at h
    split at h
    · simp at h
    · rename_i sid hp
      rcases List.mem_cons.mp hn with rfl | hn'
      · exact ⟨sid, hp⟩
      · exact ih _ h n hn'

/-- When directory creation succeeds, the only error the per-type pass
produces is `InvalidSectorName`. -/
theorem scanTypes_error_eq (fs : FileSystem) (path : String)
    (id : StorageID) (hdir : ∀ d, fs.createDirOk d = true) :
    ∀ (ts : List SectorFileType) (idx : IndexState) (e : StoreErr),
      (scanTypes fs path id ts idx).1 = some e →
      e = .InvalidSectorName := by
  intro ts
  induction ts with
  | nil => intro idx e h; simp [scanTypes] at h
  | cons t rest ih =>
    intro idx e h
    rw [scanTypes] at h
    split at h
    · rw [hdir] at h
      simp at h
      exact ih _ _ h
    · rename_i names hsome
      split at h
      · rename_i e' idx' hs
        simp at h
        exact h ▸ scanNames_error_eq id t names idx e' (by rw [hs])
      · exact ih _ _ h

/-- A per-type pass that finishes without error parsed every filename of
every present listing. -/
theorem scanTypes_none_parses (fs : FileSystem) (path : String)
    (id : StorageID) (hdir : ∀ d, fs.createDirOk d = true) :
    ∀ (ts : List SectorFileType) (idx : IndexState),
      (scanTypes fs path id ts idx).1 = none →
      ∀ t ∈ ts, ∀ names, fs.listing path t = some names →
        ∀ n ∈ names, ∃ sid, parseSectorId n = .ok sid := by
  intro ts
  induction ts with
  | nil => intro idx _ t ht; simp at ht
  | cons t' rest ih =>
    intro idx h t ht names hl n hn
    rw [scanTypes] at h
    split at h
    · rename_i hnone
      rw [hdir] at h
      simp at h
      rcases List.mem_cons.mp ht with rfl | ht'
      · rw [hl] at hnone; cases hnone
      · exact ih _ h t ht' names hl n hn
    · rename_i names' hsome
      split at h
      · simp at h
      · rename_i idx' hs
        rcases List.mem_cons.mp ht with rfl | ht'
        · rw [hl] at hsome
          injection hsome with hh
          subst hh
          exact scanNames_none_parses id t names idx (by rw [hs]) n hn
        · exact ih _ h t ht' names hl n hn

/-- C4 counterexample: with a storage whose unsealed directory holds
`junk.txt` (not matching the regex) and whose sealed directory holds the
matching `s-t01000-7`, `openPath` does not skip the bad name with a
warning: it fails with `InvalidSectorName`, registers no path and — the
matching sealed filename notwithstanding — declares nothing. -/
theorem c4_counterexample :
    (openPath fsBadName emptyStore "/tmp/s1").1 =
      .error (.store .InvalidSectorName) ∧
    (openPath fsBadName emptyStore "/tmp/s1").2.paths = [] ∧
    (openPath fsBadName emptyStore "/tmp/s1").2.index.declared = [] ∧
    parseSectorId "s-t01000-7" = .ok sid0 ∧
    fsBadName.listing "/tmp/s1" .FTSealed = some ["s-t01000-7"] := by
  refine ⟨by decide, by decide, by decide, by decide, by decide⟩

/-- C4 (corrected): a filename in a sector-type subdirectory that does
not match the regex is not skipped: the `OUTCOME_TRY` on `parseSectorId`
aborts `openPath` with `InvalidSectorName` (no other scan error is
possible when directory creation succeeds), and the path is not
registered.  Filenames are never misclassified, but `openPath` does not
succeed. -/
theorem c4_nonmatching_name_fails_open_path
    (fs : FileSystem) (s : LocalStoreState) (path : String)
    (m : LocalStorageMeta)
    (hmeta : fs.meta path = some m)
    (hdup : s.paths.lookup m.id = none)
    (hstat : fs.statOk path = true)
    (hdir : ∀ d, fs.createDirOk d = true)
    (t : SectorFileType) (ht : t ∈ kSectorFileTypes)
    (names : List String) (hl : fs.listing path t = some names)
    (n : String) (hn : n ∈ names) (e : StoreErr)
    (hbad : parseSectorId n = .error e) :
    (openPath fs s path).1 = .error (.store .InvalidSectorName) ∧
    (openPath fs s path).2.paths = s.paths := by
  simp only [openPath, hmeta, hdup, hstat, if_true]
  rcases hscan : scanTypes fs path m.id kSectorFileTypes
      (s.index.attach
        { id := m.id, weight := m.weight, can_seal := m.can_seal,
          can_store := m.can_store }) with ⟨r, idx'⟩
  cases r with
  | none =>
    obtain ⟨sid, hok⟩ := scanTypes_none_parses fs path m.id hdir
      kSectorFileTypes _ (by rw [hscan]) t ht names hl n hn
    rw [hok] at hbad
    cases hbad
  | some e' =>
    have he' : e' = .InvalidSectorName :=
      scanTypes_error_eq fs path m.id hdir kSectorFileTypes _ e'
        (by rw [hscan])
    subst he'
    exact ⟨rfl, rfl⟩

/-- C4 witness: the corrected statement applied at the concrete bad
filename `junk.txt`. -/
theorem c4_nonmatching_witness :
    (openPath fsBadName emptyStore "/tmp/s1").1 =
      .error (.store .InvalidSectorName) ∧
    (openPath fsBadName emptyStore "/tmp/s1").2.paths = [] :=
  c4_nonmatching_name_fails_open_path fsBadName emptyStore "/tmp/s1"
    { id := "s1", weight := 10, can_seal := true, can_store := true }
    (by decide) (by decide) (by decide) (fun _ => rfl) .FTUnsealed
    (by decide) ["junk.txt"] (by decide) "junk.txt" (by decide)
    .InvalidSectorName (by decide)

/-- Appending a fresh key to a registry makes it found. -/
theorem pathMap_lookup_append (l : PathMap) (k : StorageID) (v : String)
    (h : l.lookup k = none) : (l ++ [(k, v)]).lookup k = some v := by
  induction l with
  | nil => simp [List.lookup]
  | cons p rest ih =>
    obtain ⟨a, b⟩ := p
    simp only [List.cons_append, List.lookup] at h ⊢
    cases hab : (k == a) with
    | true => rw [hab] at h; exact Option.noConfusion h
    | false => rw [hab] at h; exact ih h

/-- C9: a second `openPath` on the same path fails with
`DuplicateStorage` and mutates nothing — the store and index state after
the failed second call is exactly the state after the first call (the
duplicate check precedes every mutation). -/
theorem c9_duplicate_open_path (fs : FileSystem) (s : LocalStoreState)
    (path : String)
    (h : (openPath fs s path).1 = .ok ()) :
    (openPath fs (openPath fs s path).2 path).1 =
      .error (.store .DuplicateStorage) ∧
    (openPath fs (openPath fs s path).2 path).2 =
      (openPath fs s path).2 := by
  cases hm : fs.meta path with
  | none => rw [openPath] at h; rw [hm] at h; simp at h
  | some m =>
    cases hl : s.paths.lookup m.id with
    | some p0 =>
      rw [openPath] at h; rw [hm] at h
      simp only [hl] at h
      simp at h
    | none =>
      by_cases hst : fs.statOk path
      · rcases hscan : scanTypes fs path m.id kSectorFileTypes
            (s.index.attach
              { id := m.id, weight := m.weight, can_seal := m.can_seal,
                can_store := m.can_store }) with ⟨r, idx'⟩
        cases r with
        | some e =>
          rw [openPath] at h; rw [hm] at h
          simp only [hl, hst, if_true, hscan] at h
          simp at h
        | none =>
          have h2 : (openPath fs s path).2 =
              { paths := s.paths ++ [(m.id, path)], index := idx' } := by
            rw [openPath]; rw [hm]
            simp only [hl, hst, if_true, hscan]
          rw [h2]
          have hlook : (s.paths ++ [(m.id, path)]).lookup m.id = some path :=
            pathMap_lookup_append s.paths m.id path hl
          constructor
          · rw [openPath]; rw [hm]; simp only [hlook]
          · rw [openPath]; rw [hm]; simp only [hlook]
      · rw [openPath] at h; rw [hm] at h
        simp only [hl] at h
        rw [if_neg hst] at h
        simp at h

/-- C9 witness: the theorem applied at the concrete `fsGood` fixture. -/
theorem c9_duplicate_witness :
    (openPath fsGood (openPath fsGood emptyStore "/tmp/s1").2 "/tmp/s1").1 =
      .error (.store .DuplicateStorage) ∧
    (openPath fsGood (openPath fsGood emptyStore "/tmp/s1").2 "/tmp/s1").2 =
      (openPath fsGood emptyStore "/tmp/s1").2 :=
  c9_duplicate_open_path fsGood emptyStore "/tmp/s1" (by decide)

/-- C5 counterexample: moving the sealed file of `sid0` from the
non-`can_store` storage `src1` to `dst1` with a failing rename returns
`CannotMoveSector` and leaves the index with the sector dropped from the
source and not declared at the destination — while the file was never
moved (the rename failed).  The index update is not transactional with
the rename. -/
theorem c5_counterexample :
    (moveStorage envRenameFail moveIdx movePaths sid0 0 2).1 =
      .error (.store .CannotMoveSector) ∧
    (moveStorage envRenameFail moveIdx movePaths sid0 0 2).2.declared =
      [] ∧
    moveIdx.declared = [("src1", sid0, .FTSealed)] ∧
    (∀ a b, envRenameFail.renameOk a b = false) := by
  refine ⟨by decide, by decide, by decide, fun a b => rfl⟩

/-- C5 (corrected): the index update of `moveStorage` is not
transactional with the rename.  For a move of a single type bit whose
current storage is not `can_store`, the source declaration is dropped
before the rename is attempted; when the rename fails the call returns
`CannotMoveSector` with the index equal to the original with the source
declaration dropped and nothing declared at the destination, although the
file was not moved.  The destination is declared only after a successful
rename. -/
theorem c5_drop_precedes_rename
    (env : MoveEnv) (idx : IndexState) (paths : PathMap) (sid : SectorId)
    (proof : RegisteredProof) (t : SectorFileType)
    (dest src : AcquireSectorResponse)
    (hdest : acquireSectorWithoutLock idx.view paths sid proof 0 t.bit
      false = .ok dest)
    (hsrc : acquireSectorWithoutLock idx.view paths sid proof t.bit 0
      false = .ok src)
    (srcId dstId : StorageID) (sst dst : StorageInfo)
    (hss : src.stores.getPathByType t = some srcId)
    (hds : dest.stores.getPathByType t = some dstId)
    (hgs : idx.getInfo srcId = .ok sst)
    (hgd : idx.getInfo dstId = .ok dst)
    (hne : sst.id ≠ dst.id)
    (hcs : sst.can_store = false)
    (sp dp : String)
    (hsp : src.paths.getPathByType t = some sp)
    (hdp : dest.paths.getPathByType t = some dp)
    (hren : env.renameOk sp dp = false) :
    moveStorage env idx paths sid proof t.bit =
      (.error (.store .CannotMoveSector), idx.dropSector srcId sid t) := by
  have g11 : (1 : Nat) &&& 1 = 1 := by decide
  have g12 : (1 : Nat) &&& 2 = 0 := by decide
  have g14 : (1 : Nat) &&& 4 = 0 := by decide
  have g22 : (2 : Nat) &&& 2 = 2 := by decide
  have g24 : (2 : Nat) &&& 4 = 0 := by decide
  have g44 : (4 : Nat) &&& 4 = 4 := by decide
  cases t <;>
    simp only [SectorFileType.bit] at hdest hsrc <;>
    simp only [moveStorage, hdest, hsrc, moveLoop, kSectorFileTypes,
      SectorFileType.bit, g11, g12, g14, g22, g24, g44, hss, hds, hgs, hgd,
      hcs, hsp, hdp, hren] <;>
    simp [hne]

/-- C5 witness: the corrected statement applied at the concrete move
fixture. -/
theorem c5_drop_witness :
    moveStorage envRenameFail moveIdx movePaths sid0 0 2 =
      (.error (.store .CannotMoveSector),
        moveIdx.dropSector "src1" sid0 .FTSealed) :=
  c5_drop_precedes_rename envRenameFail moveIdx movePaths sid0 0 .FTSealed
    { paths := ⟨none, some "/store/sealed/s-t01000-7", none⟩,
      stores := ⟨none, some "dst1", none⟩ }
    { paths := ⟨none, some "/seal/sealed/s-t01000-7", none⟩,
      stores := ⟨none, some "src1", none⟩ }
    (by decide) (by decide) "src1" "dst1" srcInfo dstInfo
    (by decide) (by decide) (by decide) (by decide) (by decide) (by decide)
    "/seal/sealed/s-t01000-7" "/store/sealed/s-t01000-7"
    (by decide) (by decide) rfl

/-- Setting one type slot leaves the other slots unchanged. -/
theorem getPathByType_set_ne {α : Type} (p : ByType α)
    (t t' : SectorFileType) (v : α) (h : t' ≠ t) :
    (p.setPathByType t' v).getPathByType t = p.getPathByType t := by
  cases t <;> cases t' <;>
    simp_all [ByType.setPathByType, ByType.getPathByType]

/-- The existing loop leaves the slot of a type empty when the type's bit
is outside the mask or no locally registered holder exists for it. -/
theorem findExisting_slot_none (idx : SectorIndexView) (paths : PathMap)
    (sid : SectorId) (existing : Nat) (t : SectorFileType)
    (h : t.bit &&& existing = 0 ∨ noLocalHolder idx paths sid t) :
    ∀ (ts : List SectorFileType) (acc : AcquireSectorResponse),
      acc.paths.getPathByType t = none →
      (findExisting idx paths sid existing ts acc).paths.getPathByType t =
        none := by
  intro ts
  induction ts with
  | nil => intro acc ha; exact ha
  | cons t' rest ih =>
    intro acc ha
    rw [findExisting]
    split
    · exact ih acc ha
    case isFalse hguard =>
      split
      · exact ih acc ha
      case _ infos hf =>
        split
        · exact ih acc ha
        case _ pr storage root hp =>
          apply ih
          by_cases hT : t' = t
          · subst hT
            exfalso
            rcases h with hbit | hnl
            · exact hguard hbit
            · rcases hnl with ⟨e, he⟩ | ⟨infos', hi, hpn⟩
              · rw [he] at hf; cases hf
              · rw [hi] at hf
                injection hf with hf
                subst hf
                rw [hpn] at hp
                cases hp
          · rw [getPathByType_set_ne acc.paths t t' _ hT]
            exact ha

/-- A completed allocate loop leaves the slot of a type outside the
allocate mask unchanged. -/
theorem allocateLoop_slot_preserved (idx : SectorIndexView)
    (paths : PathMap) (sid : SectorId) (proof : RegisteredProof)
    (canSeal : Bool) (allocate : Nat) (t : SectorFileType)
    (ht : t.bit &&& allocate = 0) :
    ∀ (ts : List SectorFileType) (acc r : AcquireSectorResponse),
      allocateLoop idx paths sid proof canSeal allocate ts acc = .ok r →
      r.paths.getPathByType t = acc.paths.getPathByType t := by
  intro ts
  induction ts with
  | nil =>
    intro acc r h
    rw [allocateLoop] at h
    injection h with h
    rw [h]
  | cons t' rest ih =>
    intro acc r h
    rw [allocateLoop] at h
    split at h
    · exact ih _ _ h
    case isFalse hg =>
      split at h
      · cases h
      · split at h
        · cases h
        · rename_i infos hb pr hpick storage root
          have hT : t' ≠ t := by
            intro hEq
            rw [hEq] at hg
            exact hg ht
          rw [ih _ _ h]
          exact getPathByType_set_ne _ _ _ _ hT

/-- When every allocate bit has a satisfiable best-alloc candidate the
allocate loop succeeds. -/
theorem allocateLoop_ok_of_satisfiable (idx : SectorIndexView)
    (paths : PathMap) (sid : SectorId) (proof : RegisteredProof)
    (canSeal : Bool) (allocate : Nat) :
    ∀ (ts : List SectorFileType),
      (∀ t ∈ ts, t.bit &&& allocate ≠ 0 →
        ∃ infos, idx.bestAlloc t proof canSeal = .ok infos) →
      (∀ t ∈ ts, t.bit &&& allocate ≠ 0 →
        ∀ infos, idx.bestAlloc t proof canSeal = .ok infos →
          (pickLocal paths infos).isSome) →
      ∀ acc, ∃ r,
        allocateLoop idx paths sid proof canSeal allocate ts acc = .ok r := by
  intro ts
  induction ts with
  | nil => intro _ _ acc; exact ⟨acc, rfl⟩
  | cons t' rest ih =>
    intro hok hpick acc
    by_cases hg : t'.bit &&& allocate = 0
    · obtain ⟨r, hr⟩ := ih (fun u h => hok u (List.mem_cons_of_mem _ h))
        (fun u h => hpick u (List.mem_cons_of_mem _ h)) acc
      refine ⟨r, ?_⟩
      rw [allocateLoop, if_pos hg]
      exact hr
    · obtain ⟨infos, hb⟩ := hok t' (List.mem_cons_self _ _) hg
      have hs := hpick t' (List.mem_cons_self _ _) hg infos hb
      cases hp : pickLocal paths infos with
      | none => rw [hp] at hs; cases hs
      | some pr =>
        obtain ⟨storage, root⟩ := pr
        obtain ⟨r, hr⟩ := ih (fun u h => hok u (List.mem_cons_of_mem _ h))
          (fun u h => hpick u (List.mem_cons_of_mem _ h))
          { paths := acc.paths.setPathByType t' (sectorPathOf root t' sid),
            stores := acc.stores.setPathByType t' storage }
        refine ⟨r, ?_⟩
        rw [allocateLoop, if_neg hg]
        simp only [hb, hp]
        exact hr

/-- When some allocate bit has best-alloc candidates but none of them is
locally registered, the allocate loop fails with `NotFoundPath`. -/
theorem allocateLoop_notfound (idx : SectorIndexView) (paths : PathMap)
    (sid : SectorId) (proof : RegisteredProof) (canSeal : Bool)
    (allocate : Nat) :
    ∀ (ts : List SectorFileType),
      (∀ t ∈ ts, t.bit &&& allocate ≠ 0 →
        ∃ infos, idx.bestAlloc t proof canSeal = .ok infos) →
      (∃ t ∈ ts, t.bit &&& allocate ≠ 0 ∧
        ∀ infos, idx.bestAlloc t proof canSeal = .ok infos →
          pickLocal paths infos = none) →
      ∀ acc, allocateLoop idx paths sid proof canSeal allocate ts acc =
        .error (.store .NotFoundPath) := by
  intro ts
  induction ts with
  | nil =>
    intro _ hex acc
    rcases hex with ⟨t, ht, _⟩
    simp at ht
  | cons t' rest ih =>
    intro hok hex acc
    rw [allocateLoop]
    split
    case isTrue hg =>
      apply ih (fun t h => hok t (List.mem_cons_of_mem _ h)) ?_ acc
      rcases hex with ⟨t, htmem, hbit, hnone⟩
      rcases List.mem_cons.mp htmem with rfl | hmem
      · exact absurd hg hbit
      · exact ⟨t, hmem, hbit, hnone⟩
    case isFalse hg =>
      obtain ⟨infos, hb⟩ := hok t' (List.mem_cons_self _ _) hg
      rcases hex with ⟨t, htmem, hbit, hnone⟩
      by_cases hEq : t = t'
      · subst hEq
        simp only [hb, hnone infos hb]
      · cases hp : pickLocal paths infos with
        | none => simp only [hb, hp]
        | some pr =>
          obtain ⟨storage, root⟩ := pr
          simp only [hb, hp]
          have hmem : t ∈ rest := by
            rcases List.mem_cons.mp htmem with rfl | hmem
            · exact absurd rfl hEq
            · exact hmem
          exact ih (fun u h => hok u (List.mem_cons_of_mem _ h))
            ⟨t, hmem, hbit, hnone⟩ _

/-- C10: with disjoint masks and every allocate bit backed by a
successful `storageBestAlloc`, a missing local holder for an `existing`
bit does not fail `acquireSector`: the call succeeds and the response
simply carries no path for that type; and the call fails — with
`NotFoundPath` — exactly when some allocate bit has no locally
registered candidate. -/
theorem c10_missing_existing_tolerated (idx : SectorIndexView)
    (paths : PathMap) (sid : SectorId) (proof : RegisteredProof)
    (canSeal : Bool) (existing allocate : Nat)
    (hdisj : existing &&& allocate = 0)
    (hok : ∀ t ∈ kSectorFileTypes, t.bit &&& allocate ≠ 0 →
      ∃ infos, idx.bestAlloc t proof canSeal = .ok infos) :
    ((∀ t ∈ kSectorFileTypes, t.bit &&& allocate ≠ 0 →
        ∀ infos, idx.bestAlloc t proof canSeal = .ok infos →
          (pickLocal paths infos).isSome) →
      ∃ r, acquireSector idx paths sid proof existing allocate canSeal =
          .ok r ∧
        ∀ t ∈ kSectorFileTypes, t.bit &&& existing ≠ 0 →
          noLocalHolder idx paths sid t →
          r.paths.getPathByType t = none) ∧
    ((∃ t ∈ kSectorFileTypes, t.bit &&& allocate ≠ 0 ∧
        ∀ infos, idx.bestAlloc t proof canSeal = .ok infos →
          pickLocal paths infos = none) →
      acquireSector idx paths sid proof existing allocate canSeal =
        .error (.store .NotFoundPath)) := by
  have hguard : (existing ||| allocate) = (existing ^^^ allocate) :=
    (lor_eq_xor_iff_land_eq_zero existing allocate).mpr hdisj
  constructor
  · intro hpick
    obtain ⟨r, hr⟩ := allocateLoop_ok_of_satisfiable idx paths sid proof
      canSeal allocate kSectorFileTypes hok hpick
      (findExisting idx paths sid existing kSectorFileTypes
        { paths := ByType.empty, stores := ByType.empty })
    refine ⟨r, ?_, ?_⟩
    · rw [acquireSector, if_neg (by simp [hguard]), acquireSectorWithoutLock]
      exact hr
    · intro t htmem hbit hnl
      have hslot : (findExisting idx paths sid existing kSectorFileTypes
          { paths := ByType.empty,
            stores := ByType.empty }).paths.getPathByType t = none :=
        findExisting_slot_none idx paths sid existing t (.inr hnl)
          kSectorFileTypes _ (by cases t <;> rfl)
      have hallocbit : t.bit &&& allocate = 0 :=
        bit_disjoint t existing allocate hbit hdisj
      rw [allocateLoop_slot_preserved idx paths sid proof canSeal allocate
        t hallocbit kSectorFileTypes _ r hr]
      exact hslot
  · intro hex
    rw [acquireSector, if_neg (by simp [hguard]), acquireSectorWithoutLock]
    exact allocateLoop_notfound idx paths sid proof canSeal allocate
      kSectorFileTypes hok hex _

/-- C10 witness: the theorem applied at concrete fixtures — an `existing`
cache bit with no holder is tolerated (success branch over `moveIdx`),
and an unsatisfiable allocate bit yields `NotFoundPath` (failure branch
over the empty view). -/
theorem c10_missing_existing_witness :
    (∃ r, acquireSector moveIdx.view movePaths sid0 0 4 3 true = .ok r ∧
      ∀ t ∈ kSectorFileTypes, t.bit &&& 4 ≠ 0 →
        noLocalHolder moveIdx.view movePaths sid0 t →
        r.paths.getPathByType t = none) ∧
    acquireSector emptyView [] sid0 0 1 2 true =
      .error (.store .NotFoundPath) :=
  ⟨(c10_missing_existing_tolerated moveIdx.view movePaths sid0 0 true 4 3
      (by decide) (fun t _ _ => ⟨_, rfl⟩)).1
      (fun t _ _ infos heq => by
        injection heq with h
        subst h
        decide),
   (c10_missing_existing_tolerated emptyView [] sid0 0 true 1 2
      (by decide) (fun t _ _ => ⟨[], rfl⟩)).2
      ⟨.FTSealed, by decide, by decide,
        fun infos heq => by
          injection heq with h
          subst h
          rfl⟩⟩

/-- C6: a subscription's future resolves successfully after a
`PreCommitSector` listing its deal id followed by a `ProveCommitSector`
with the matching sector number; a `ProveCommitSector` alone (no recorded
pre-commit, any sender, any sector) leaves the future pending — the
subscription stays in `pending` and nothing resolves — and a pre-commit
alone resolves nothing either. -/
theorem c6_resolve_requires_precommit_then_provecommit
    (p to2 : Address) (d : DealId) (s s2 : SectorNumber) :
    ((p, d) ∈
      (applyMessage
        (applyMessage (onDealSectorCommitted initWatcher p d)
          { toAddr := p, method := .preCommit [d] s })
        { toAddr := p, method := .proveCommit s }).resolved) ∧
    ((applyMessage (onDealSectorCommitted initWatcher p d)
        { toAddr := to2, method := .proveCommit s2 }).resolved = [] ∧
      (p, d) ∈
        (applyMessage (onDealSectorCommitted initWatcher p d)
          { toAddr := to2, method := .proveCommit s2 }).pending) ∧
    ((applyMessage (onDealSectorCommitted initWatcher p d)
        { toAddr := to2, method := .preCommit [d] s }).resolved = []) := by
  refine ⟨?_, ⟨?_, ?_⟩, ?_⟩ <;>
    simp [applyMessage, onDealSectorCommitted, initWatcher]

end Filecoin
